import Mathlib

/-!
Shallow embedding of the pumpkin-stats classification and override engine.

The Python source lives in `src/modules/`:
* `transaction_overrides.py` — effective-exclude engine, breakdown, income
  whitelist, pending-income candidates;
* `finance_calculations.py` — household finances and boolean normalization;
* `trend_analysis.py` — monthly trends;
* `database.py` — schema, validation, idempotent insert;
* `data_ingestion.py` — CSV parsers and auto-categorization.

Machine reals (Python floats) are modelled as rationals; pandas DataFrames
of transaction rows are modelled as lists of records.
-/

namespace PumpkinStats

/-- ASCII upper-casing, `s.upper()` / SQL `UPPER`: `Char.toUpper` on every
character (the descriptions and account labels involved are ASCII). -/
def strUpper (s : String) : String := ⟨s.data.map Char.toUpper⟩

/-- ASCII lower-casing, `s.lower()`. -/
def strLower (s : String) : String := ⟨s.data.map Char.toLower⟩

/-- `s.strip()`: drop whitespace from both ends. -/
def strStrip (s : String) : String :=
  ⟨((s.data.dropWhile Char.isWhitespace).reverse.dropWhile Char.isWhitespace).reverse⟩

/-- Substring test on character lists: does the first list contain the second
as a contiguous infix?  Models Python's `pat in s` / pandas `str.contains`
(plain, non-regex alternation members) / SQL `LIKE '%pat%'`. -/
def containsSub : List Char → List Char → Bool
  | [], pat => pat.isEmpty
  | h :: t, pat => pat.isPrefixOf (h :: t) || containsSub t pat

/-- `containsSubstr s pat` : `pat` occurs inside `s`. -/
def containsSubstr (s pat : String) : Bool :=
  containsSub s.toList pat.toList

/-- A transaction row as read back by the override engine's
`SELECT *` queries in `transaction_overrides.py` (the row shape those queries
assume).  `exclude_from_budget` is stored as SQLite 0/1 (schema default 0),
modelled as `Bool`; nullable text columns are `Option String`. -/
structure Txn where
  id : String
  date : String
  description : String
  amount : ℚ
  account : String
  category : String
  exclude_from_budget : Bool := false
  auto_exclude_reason : Option String := none
  manual_override_type : Option String := none
  override_reason : Option String := none
  override_category : Option String := none
  deriving DecidableEq, Repr

/-- The CASE expression of `get_effective_transactions`
(`transaction_overrides.py`, lines 16–21):
manual include → 0, manual exclude → 1, non-NULL auto reason → 1,
else the legacy `exclude_from_budget` flag. -/
def effective_exclude (t : Txn) : Bool :=
  if t.manual_override_type = some "include" then false
  else if t.manual_override_type = some "exclude" then true
  else if t.auto_exclude_reason.isSome then true
  else t.exclude_from_budget

/-- `get_budget_transactions`: rows of the month with `effective_exclude == 0`. -/
def get_budget_transactions (l : List Txn) : List Txn :=
  l.filter (fun t => effective_exclude t = false)

/-- `get_excluded_transactions`: rows with `effective_exclude == 1`. -/
def get_excluded_transactions (l : List Txn) : List Txn :=
  l.filter (fun t => effective_exclude t = true)

/-- The income vocabulary of `_apply_income_whitelist`
(`transaction_overrides.py`, lines 163–174) and of
`get_household_finances` (`finance_calculations.py`, lines 107–118). -/
def income_patterns : List String :=
  ["PAYROLL", "DIRECT DEP", "DIRECTDEP", "REIMBURS", "REFUND",
   "CASHBACK", "CASH BACK", "GIFT", "BONUS", "INTEREST"]

/-- `description.str.upper().str.contains("|".join(income_patterns))`:
the upper-cased description contains some pattern of the vocabulary. -/
def matchesIncomePatterns (description : String) : Bool :=
  income_patterns.any (fun p => containsSubstr (strUpper description) p)

/-- `account.str.contains("Credit", case=False)` /
SQL `UPPER(account) LIKE '%CREDIT%'`. -/
def isCreditAccount (account : String) : Bool :=
  containsSubstr (strUpper account) "CREDIT"

/-- `_apply_income_whitelist`: from the given rows, keep the positive ones
whose description matches the income vocabulary, plus positive rows on a
credit-type account with amount below 100; combined as in the source
(concat + drop_duplicates when both parts are non-empty). -/
def apply_income_whitelist (ts : List Txn) : List Txn :=
  let positive := ts.filter (fun t => 0 < t.amount)
  let legitimate_income := positive.filter (fun t => matchesIncomePatterns t.description)
  let credit_card_income :=
    positive.filter (fun t => isCreditAccount t.account && t.amount < 100)
  if !legitimate_income.isEmpty && !credit_card_income.isEmpty then
    (legitimate_income ++ credit_card_income).dedup
  else if !legitimate_income.isEmpty then legitimate_income
  else if !credit_card_income.isEmpty then credit_card_income
  else []

/-- The manual income inclusion filter of `get_filtered_income_transactions`
(lines 213–216): `override_category == "income"` and
`manual_override_type == "include"`. -/
def isManualIncome (t : Txn) : Bool :=
  t.override_category = some "income" && t.manual_override_type = some "include"

/-- `get_filtered_income_transactions`: whitelist income plus manual income
inclusions among the positive budget transactions of the month. -/
def get_filtered_income_transactions (l : List Txn) : List Txn :=
  let positive_transactions := (get_budget_transactions l).filter (fun t => 0 < t.amount)
  let whitelist_income := apply_income_whitelist positive_transactions
  let manual_income := positive_transactions.filter isManualIncome
  if !whitelist_income.isEmpty && !manual_income.isEmpty then
    (whitelist_income ++ manual_income).dedup
  else if !whitelist_income.isEmpty then whitelist_income
  else if !manual_income.isEmpty then manual_income
  else []

/-- `get_pending_income_overrides`: positive budget transactions whose id was
captured neither by the whitelist nor by a manual income inclusion.  (The
source finally sorts by date/amount descending; the sort only permutes the
rows and is omitted here.) -/
def get_pending_income_overrides (l : List Txn) : List Txn :=
  let positive_transactions := (get_budget_transactions l).filter (fun t => 0 < t.amount)
  let whitelist_income := apply_income_whitelist positive_transactions
  let whitelist_ids := whitelist_income.map (fun t => t.id)
  let manual_income := positive_transactions.filter isManualIncome
  let manual_income_ids := manual_income.map (fun t => t.id)
  let excluded_ids := whitelist_ids ++ manual_income_ids
  positive_transactions.filter (fun t => !(excluded_ids.contains t.id))

/-! ### `get_calculation_breakdown` (transaction_overrides.py, lines 39–88) -/

/-- Sum of amounts of a list of rows. -/
def sumAmounts (l : List Txn) : ℚ := (l.map (fun t => t.amount)).sum

/-- Sum of absolute amounts of a list of rows (SQL `SUM(ABS(amount))`). -/
def sumAbsAmounts (l : List Txn) : ℚ := (l.map (fun t => |t.amount|)).sum

/-- One row of the breakdown's auto-excluded GROUP BY: the count and
`SUM(ABS(amount))` of the month's rows with the given non-NULL
`auto_exclude_reason` and no manual override. -/
def breakdown_auto_excluded_group (l : List Txn) (reason : String) : ℕ × ℚ :=
  let rows := l.filter (fun t =>
    t.auto_exclude_reason = some reason && t.manual_override_type = none)
  (rows.length, sumAbsAmounts rows)

/-- One row of the breakdown's manual-overrides GROUP BY: the count and
`SUM(ABS(amount))` of the month's rows with the given
`manual_override_type`. -/
def breakdown_manual_override_group (l : List Txn) (otype : String) : ℕ × ℚ :=
  let rows := l.filter (fun t => t.manual_override_type = some otype)
  (rows.length, sumAbsAmounts rows)

/-- The signed spending sum of the breakdown:
`budget_transactions[budget_transactions["amount"] < 0]["amount"].sum()`. -/
def breakdown_spending_signed (l : List Txn) : ℚ :=
  sumAmounts ((get_budget_transactions l).filter (fun t => t.amount < 0))

/-- The breakdown's final spending total: `abs(spending)`. -/
def breakdown_final_spending (l : List Txn) : ℚ :=
  |breakdown_spending_signed l|

/-- The breakdown's final income total: sum of the filtered income rows. -/
def breakdown_final_income (l : List Txn) : ℚ :=
  sumAmounts (get_filtered_income_transactions l)

/-- The breakdown's final net: `income + spending` (spending here is the
signed, non-positive sum). -/
def breakdown_final_net (l : List Txn) : ℚ :=
  breakdown_final_income l + breakdown_spending_signed l

/-! ### `get_household_finances` (finance_calculations.py, lines 58–139)

The exclusion there is by category (`Transfers` / `Credit Card Payment`) and
the legacy normalized `exclude_from_budget` flag only; the override columns
are never consulted. -/

/-- The category exclusion of `get_household_finances`:
`~category.isin(["Transfers", "Credit Card Payment"])` negated. -/
def isTransferCategory (t : Txn) : Bool :=
  t.category = "Transfers" || t.category = "Credit Card Payment"

/-- `get_household_finances` spending: absolute sum of negative amounts that
are not transfer-categorized and not flagged `exclude_from_budget`. -/
def household_spending (l : List Txn) : ℚ :=
  |sumAmounts (l.filter (fun t =>
    t.amount < 0 && !(isTransferCategory t) && !t.exclude_from_budget))|

/-- `get_household_finances` income: positive, non-transfer-categorized,
non-flagged rows that match the income vocabulary or are small credits on a
credit-type account (the source combines both parts by concat +
drop_duplicates; membership-wise this is the disjunction of the filters). -/
def household_income_rows (l : List Txn) : List Txn :=
  let income_transactions := l.filter (fun t =>
    0 < t.amount && !(isTransferCategory t) && !t.exclude_from_budget)
  let legitimate_income := income_transactions.filter (fun t =>
    matchesIncomePatterns t.description)
  let credit_card_income := income_transactions.filter (fun t =>
    isCreditAccount t.account && t.amount < 100)
  (legitimate_income ++ credit_card_income).dedup

/-- `get_household_finances` income total. -/
def household_income (l : List Txn) : ℚ := sumAmounts (household_income_rows l)

/-- `get_household_finances` net: `income - spending`. -/
def household_net (l : List Txn) : ℚ := household_income l - household_spending l

/-! ### `get_monthly_trends` (trend_analysis.py, lines 17–73)

The SQL emits, per row, a `spending` and an `income` contribution via CASE
expressions, then groups by calendar month and sums.  For one month's rows
this is the per-row sum below.  `COALESCE(exclude_from_budget, 0) = 0` is the
flag being false in the 0/1 model. -/

/-- Per-month trend spending: `SUM` over the month of
`CASE WHEN amount < 0 AND category NOT IN ('Transfers','Credit Card Payment')
AND COALESCE(exclude_from_budget,0) = 0 THEN abs(amount) ELSE 0 END`. -/
def trend_spending (l : List Txn) : ℚ :=
  (l.map (fun t =>
    if t.amount < 0 && !(isTransferCategory t) && !t.exclude_from_budget
    then |t.amount| else 0)).sum

/-- The income CASE condition of the trend query: positive, not
transfer-categorized, not flagged, and matching the income vocabulary or a
small credit on a credit-type account. -/
def trend_income_cond (t : Txn) : Bool :=
  0 < t.amount && !(isTransferCategory t) && !t.exclude_from_budget &&
    (matchesIncomePatterns t.description ||
      (isCreditAccount t.account && t.amount < 100))

/-- Per-month trend income: `SUM` of the income CASE over the month. -/
def trend_income (l : List Txn) : ℚ :=
  (l.map (fun t => if trend_income_cond t then t.amount else 0)).sum

/-- Per-month trend net: `income - spending`. -/
def trend_net (l : List Txn) : ℚ := trend_income l - trend_spending l

/-! ### Spec-side comparison values for the refinement claim about trends.

These follow the spec's words (§4.4: "using the same effective-exclude and
whitelist rules as §4.3, re-derived per row"), to be compared with the
`trend_*` definitions taken from `trend_analysis.py`. -/

/-- Modelled from the spec: a month's spending under the §4.3 rules —
absolute sum over rows with `effective_exclude == False` and negative
amount. -/
def spec_monthly_spending (l : List Txn) : ℚ :=
  sumAbsAmounts (l.filter (fun t => effective_exclude t = false && t.amount < 0))

/-- Modelled from the spec: a month's income under the §4.3 rules — sum over
positive rows with `effective_exclude == False` that pass the income
whitelist (vocabulary, or small credit on a credit-type account). -/
def spec_monthly_income (l : List Txn) : ℚ :=
  sumAmounts (l.filter (fun t => effective_exclude t = false && 0 < t.amount &&
    (matchesIncomePatterns t.description ||
      (isCreditAccount t.account && t.amount < 100))))

/-- Modelled from the spec: a month's net under the §4.3 rules. -/
def spec_monthly_net (l : List Txn) : ℚ :=
  spec_monthly_income l - spec_monthly_spending l

/-! ### Ledger store (database.py) -/

/-- A candidate transaction dict as produced by the parsers and consumed by
`insert_transactions`.  Optional dict keys are `Option`; a missing or `None`
string field and the empty string are both falsy in the source's
`if not txn.get(field)` checks, so absent strings are modelled as `""`. -/
structure RawTxn where
  date : String
  description : String
  amount : ℚ
  account : String
  category : Option String := none
  auto_exclude_reason : Option String := none
  raw_description : Option String := none
  deriving DecidableEq, Repr

/-- `generate_transaction_id` builds `f"{date}|{description}|{amount}|{account}"`
and md5-hashes it.  The hash is modelled by the content string itself: the
model keeps exactly the property the code relies on, that the id is a
deterministic function of (date, description, amount, account). -/
def generate_transaction_id (date description : String) (amount : ℚ)
    (account : String) : String :=
  date ++ "|" ++ description ++ "|" ++ toString amount ++ "|" ++ account

/-- `validate_transaction` (database.py, lines 111–137): required fields must
be truthy (a zero amount and empty strings are falsy), the amount magnitude
must not exceed 1,000,000, the date string must have length ≥ 8 and contain
a dash, and the description must not be only whitespace. -/
def validate_transaction (t : RawTxn) : Bool :=
  if t.date = "" then false
  else if t.description = "" then false
  else if t.amount = 0 then false
  else if t.account = "" then false
  else if 1000000 < |t.amount| then false
  else if t.date.length < 8 || !(t.date.toList.contains '-') then false
  else if strStrip t.description = "" then false
  else true

/-- A stored row as written by `insert_transactions`' INSERT, which supplies
exactly the columns (id, date, description, amount, account, category,
raw_description); in particular it carries no `auto_exclude_reason`. -/
structure StoredTxn where
  id : String
  date : String
  description : String
  amount : ℚ
  account : String
  category : String
  raw_description : String
  deriving DecidableEq, Repr

/-- The row written for a validated candidate:
`txn.get("category", "Other")` and
`txn.get("raw_description", txn["description"])` supply the defaults. -/
def mkStored (tid : String) (t : RawTxn) : StoredTxn :=
  { id := tid, date := t.date, description := t.description,
    amount := t.amount, account := t.account,
    category := t.category.getD "Other",
    raw_description := t.raw_description.getD t.description }

/-- The id computed inside `insert_transactions` for a candidate:
`generate_transaction_id(txn["date"], txn["description"], txn["amount"],
txn["account"])`. -/
def candidate_id (t : RawTxn) : String :=
  generate_transaction_id t.date t.description t.amount t.account

/-- The existence check of `insert_transactions`:
`SELECT id FROM transactions WHERE id = ?` found a row. -/
def has_id (db : List StoredTxn) (tid : String) : Bool :=
  db.any (fun r => r.id = tid)

/-- `insert_transactions` (database.py, lines 140–174): validate each
candidate, skip invalid ones, compute the deterministic id, insert only when
no stored row has that id, and count the inserts.  The table is the list of
stored rows; returns (new table, new_count). -/
def insert_transactions : List RawTxn → List StoredTxn → List StoredTxn × ℕ
  | [], db => (db, 0)
  | t :: rest, db =>
    if validate_transaction t then
      if has_id db (candidate_id t) then insert_transactions rest db
      else
        ((insert_transactions rest (db ++ [mkStored (candidate_id t) t])).1,
         (insert_transactions rest (db ++ [mkStored (candidate_id t) t])).2 + 1)
    else insert_transactions rest db

/-! ### Schema (database.py, `_create_tables`, lines 37–74) -/

/-- The columns of the `transactions` table created by `_create_tables`. -/
def transactions_table_columns : List String :=
  ["id", "date", "description", "amount", "account", "category",
   "category_source", "raw_description", "exclude_from_budget",
   "manual_notes", "created_at", "updated_at"]

/-- The columns supplied by the INSERT statement of `insert_transactions`. -/
def insert_statement_columns : List String :=
  ["id", "date", "description", "amount", "account", "category",
   "raw_description"]

/-- Transaction-table columns referenced by the SQL of
`get_effective_transactions` (the CASE and WHERE clauses). -/
def effective_transactions_query_columns : List String :=
  ["manual_override_type", "auto_exclude_reason", "exclude_from_budget",
   "date", "amount"]

/-- Transaction-table columns referenced by the two GROUP BY queries of
`get_calculation_breakdown`. -/
def calculation_breakdown_query_columns : List String :=
  ["auto_exclude_reason", "manual_override_type", "amount", "date"]

/-- Transaction-table columns referenced by the two queries of
`get_override_candidates`. -/
def override_candidates_query_columns : List String :=
  ["auto_exclude_reason", "manual_override_type", "exclude_from_budget",
   "date"]

/-- Transaction-table columns referenced by the UPDATE of
`apply_manual_override`. -/
def apply_manual_override_update_columns : List String :=
  ["manual_override_type", "override_reason", "override_category",
   "updated_at", "id"]

/-- SQLite semantics: a statement whose referenced column is absent from the
table's schema fails with an error ("no such column") instead of returning
rows. -/
def statement_errors (schema refs : List String) : Bool :=
  !(refs.all (fun c => schema.contains c))

/-! ### Parser / auto-categorization (data_ingestion.py) -/

/-- `CategoryMapper.STANDARD_CATEGORIES`, in source (insertion) order. -/
def STANDARD_CATEGORIES : List (String × List String) :=
  [("Food & drink", ["food", "drink", "restaurant", "bar", "coffee", "dining"]),
   ("Groceries", ["grocery", "groceries", "supermarket", "market", "food store"]),
   ("Automotive",
    ["gas", "fuel", "gasoline", "shell", "exxon", "bp", "chevron", "automotive",
     "auto", "oil change", "repair", "mechanic", "car wash", "parking"]),
   ("Pumpkin", ["pet", "vet", "veterinary", "dog", "animal", "petco", "petsmart"]),
   ("Shopping", ["shopping", "retail", "store", "merchandise", "amazon", "target"]),
   ("Bills & utilities",
    ["utility", "utilities", "electric", "water", "internet", "phone", "cable"]),
   ("Travel", ["travel", "hotel", "airline", "flight", "uber", "lyft", "taxi"]),
   ("Health & wellness",
    ["health", "medical", "pharmacy", "doctor", "hospital", "fitness", "gym"]),
   ("Entertainment",
    ["entertainment", "movie", "streaming", "netflix", "spotify", "games"]),
   ("Fees & adjustments", ["fee", "fees", "adjustment", "overdraft", "late", "annual"]),
   ("Income", ["payroll", "salary", "deposit", "income", "refund", "cashback"]),
   ("Other", [])]

/-- `CategoryMapper.normalize_category`: empty category → "Other"; otherwise
lowercase and strip, then an exact-membership pass over the table in order,
then a substring pass, else "Other". -/
def normalize_category (category : String) : String :=
  if category = "" then "Other"
  else
    let category_lower := strStrip (strLower category)
    match STANDARD_CATEGORIES.find? (fun p => p.2.contains category_lower) with
    | some p => p.1
    | none =>
      match STANDARD_CATEGORIES.find?
          (fun p => p.2.any (fun keyword => containsSubstr category_lower keyword)) with
      | some p => p.1
      | none => "Other"

/-- The transfer/payment vocabulary of `_auto_categorize_bank`
(data_ingestion.py, lines 270–281). -/
def transfer_keywords : List String :=
  ["ONLINE TRANSFER", "RECURRING TRANSFER", "XFER TRANSFER", "CREDIT CRD EPAY",
   "CARD SERV", "ONLINE PMT", "AUTO PMT", "DISCOVER E-PAYMENT",
   "CHASE CARD SERV", "CHASE CREDIT CRD"]

/-- `TransactionParser._auto_categorize_bank` (data_ingestion.py,
lines 248–307): income patterns first, then transfer/payment detection with
the specific reason chosen by CREDIT/CARD vs TRANSFER tokens, then the
spending keyword table, else "Other". -/
def auto_categorize_bank (txn_type description : String) (amount : ℚ) :
    String × Option String :=
  let desc_upper := strUpper description
  if txn_type = "DIRECTDEP" || txn_type = "CREDIT" ||
      containsSubstr desc_upper "PAYROLL" then
    ("Income", none)
  else if (containsSubstr desc_upper "ZELLE" || containsSubstr desc_upper "VENMO")
      && 0 < amount then
    ("Income", none)
  else if 0 < amount then
    ("Income", none)
  else if transfer_keywords.any (fun keyword => containsSubstr desc_upper keyword) then
    if containsSubstr desc_upper "CREDIT" || containsSubstr desc_upper "CARD" then
      ("Transfers", some "credit_card_payment")
    else if containsSubstr desc_upper "TRANSFER" then
      ("Transfers", some "account_transfer")
    else
      ("Transfers", some "payment")
  else if ["GROCERY", "MARKET", "FOOD"].any
      (fun w => containsSubstr desc_upper w) then
    ("Groceries", none)
  else if ["GAS", "SHELL", "EXXON", "BP", "AUTOMOTIVE", "AUTO"].any
      (fun w => containsSubstr desc_upper w) then
    ("Automotive", none)
  else if ["VET", "PET", "PETCO", "PETSMART"].any
      (fun w => containsSubstr desc_upper w) then
    ("Pumpkin", none)
  else if ["RESTAURANT", "COFFEE", "STARBUCKS"].any
      (fun w => containsSubstr desc_upper w) then
    ("Food & drink", none)
  else if containsSubstr desc_upper "ATM" || containsSubstr desc_upper "WITHDRAWAL" then
    ("Other", none)
  else if ["ELECTRIC", "UTILITY", "WATER", "INTERNET"].any
      (fun w => containsSubstr desc_upper w) then
    ("Bills & utilities", none)
  else
    ("Other", none)

/-- The payment-repayment vocabulary of `parse_credit_card_csv`
(data_ingestion.py, line 209). -/
def card_payment_keywords : List String :=
  ["PAYMENT", "BILL PA", "AUTOPAY", "ONLINE PMT"]

/-- The per-row body of `parse_credit_card_csv` (data_ingestion.py,
lines 185–229), for a row with a valid date and amount: positive amounts
whose description matches the payment-repayment vocabulary are dropped
(`None`); otherwise the institution category is normalized, pet vocabulary in
the description overrides it, and the candidate carries
`auto_exclude_reason = None`. -/
def parse_credit_card_row (date : String) (amount : ℚ)
    (institution_category description account_name : String) : Option RawTxn :=
  let desc_upper := strUpper description
  if 0 < amount &&
      card_payment_keywords.any (fun w => containsSubstr desc_upper w) then
    none
  else
    let category := normalize_category institution_category
    let category :=
      if ["PETCO", "PETSMART", "VET", "ANIMAL HOSPITAL"].any
          (fun w => containsSubstr desc_upper w) then "Pumpkin"
      else category
    some { date := date, description := description, amount := amount,
           account := account_name, category := some category,
           auto_exclude_reason := none, raw_description := some description }

/-- The per-row body of `parse_bank_csv` (data_ingestion.py, lines 94–137),
for a row with a valid date: a non-empty parseable debit yields a negative
amount, else a non-empty parseable credit yields a positive amount, else the
row is dropped; the candidate is auto-categorized and tagged. -/
def parse_bank_row (date txn_type description : String)
    (debit credit : Option ℚ) (account_name : String) : Option RawTxn :=
  let amount? : Option ℚ :=
    match debit with
    | some d => some (-d)
    | none => credit
  match amount? with
  | none => none
  | some amount =>
    let cr := auto_categorize_bank txn_type description amount
    some { date := date, description := description, amount := amount,
           account := account_name, category := some cr.1,
           auto_exclude_reason := cr.2,
           raw_description := some (txn_type ++ ": " ++ description) }

/-- The engine-side view of a freshly ingested candidate: the mutable
override fields start at their defaults (`exclude_from_budget` 0, override
columns NULL), as §3 of the spec describes for a record created at
ingestion. -/
def freshTxn (tid : String) (c : RawTxn) : Txn :=
  { id := tid, date := c.date, description := c.description,
    amount := c.amount, account := c.account,
    category := c.category.getD "Other", exclude_from_budget := false,
    auto_exclude_reason := c.auto_exclude_reason,
    manual_override_type := none, override_reason := none,
    override_category := none }

/-! ### Boolean normalization (finance_calculations.py, lines 18–55) -/

/-- A stored cell value as Python sees it in `_normalize_boolean_column`:
the constructors cover the `isinstance`/`pd.isna` cases of
`normalize_value`, with `other` standing for every remaining type. -/
inductive PyVal where
  | pyNone
  | nan
  | pyBool (b : Bool)
  | pyInt (i : ℤ)
  | pyFloat (q : ℚ)
  | pyStr (s : String)
  | pyBytes (size : ℕ)
  | pyList
  | pyDict
  | pyTuple
  | pyArray
  | other
  deriving DecidableEq, Repr

/-- `normalize_value` (finance_calculations.py, lines 28–53), case by case in
source order: list/dict/tuple → False; array-like → False; `pd.isna`
(None/NaN) → False; bool passes through; int/float → `bool(val)`; str →
lowercase membership in ("true", "1", "yes", "on"); bytes → False; any other
type → False.  The function is total: no case raises. -/
def normalize_value : PyVal → Bool
  | .pyList => false
  | .pyDict => false
  | .pyTuple => false
  | .pyArray => false
  | .pyNone => false
  | .nan => false
  | .pyBool b => b
  | .pyInt i => decide (i ≠ 0)
  | .pyFloat q => decide (q ≠ 0)
  | .pyStr s => ["true", "1", "yes", "on"].contains (strLower s)
  | .pyBytes _ => false
  | .other => false

/-- `_normalize_boolean_column`: `series.apply(normalize_value)`. -/
def normalize_boolean_column (series : List PyVal) : List Bool :=
  series.map normalize_value

/-! ### Sample rows used in concrete instantiations -/

/-- The spec's payroll example: "DIRECT DEP PAYROLL 9/1", +2500.00, checking
account. -/
def payrollTxn : Txn :=
  { id := "p1", date := "2024-09-01", description := "DIRECT DEP PAYROLL 9/1",
    amount := 2500, account := "Dara Bank (Checking)", category := "Income" }

/-- The spec's non-income positive example: "AMAZON.COM PURCHASE", +45.00,
same checking account. -/
def amazonTxn : Txn :=
  { id := "a1", date := "2024-09-02", description := "AMAZON.COM PURCHASE",
    amount := 45, account := "Dara Bank (Checking)", category := "Shopping" }

/-- A two-row month holding the two spec examples. -/
def sampleMonth : List Txn := [payrollTxn, amazonTxn]

/-- An ordinary purchase carrying a manual force-exclude override: category
"Groceries", legacy flag clear, no auto reason, `manual_override_type =
'exclude'`. -/
def forceExcludedGrocery : Txn :=
  { id := "g1", date := "2024-09-03", description := "STOP & SHOP 0042",
    amount := -50, account := "Dara Bank (Checking)", category := "Groceries",
    manual_override_type := some "exclude",
    override_reason := some "duplicate charge",
    override_category := some "spending" }

/-- An auto-excluded card-payment transfer, as the ledger parser produces
it: category "Transfers", `auto_exclude_reason = 'credit_card_payment'`. -/
def transferTxn : Txn :=
  { id := "t1", date := "2024-09-04", description := "CHASE CREDIT CRD EPAY",
    amount := -500, account := "Dara Bank (Checking)",
    category := "Transfers", auto_exclude_reason := some "credit_card_payment" }

/-- A month of untouched parser-produced rows: payroll income, an ordinary
purchase-credit, and an auto-excluded transfer. -/
def septMonth : List Txn := [payrollTxn, amazonTxn, transferTxn]

/-! ## Theorems -/

/-- C1: for every transaction of a month's window, the effective-exclude
value computed by `get_effective_transactions` is `False` whenever
`manual_override_type = 'include'` (even with `auto_exclude_reason` set),
`True` whenever `manual_override_type = 'exclude'` (even with
`auto_exclude_reason` NULL and `exclude_from_budget` false); with no manual
override, a non-NULL `auto_exclude_reason` forces `True`, and otherwise the
legacy `exclude_from_budget` flag decides. -/
theorem effective_exclude_precedence (t : Txn) :
    (t.manual_override_type = some "include" → effective_exclude t = false) ∧
    (t.manual_override_type = some "exclude" → effective_exclude t = true) ∧
    (t.manual_override_type = none → t.auto_exclude_reason.isSome →
      effective_exclude t = true) ∧
    (t.manual_override_type = none → t.auto_exclude_reason = none →
      effective_exclude t = t.exclude_from_budget) := by
  unfold effective_exclude
  exact ⟨fun h => by simp [h], fun h => by simp [h],
    fun h h' => by simp [h, h'], fun h h' => by simp [h, h']⟩

/-- Witness for C1: the four precedence cases at concrete transactions — a
force-included auto-excluded transfer, a force-excluded ordinary purchase,
an untouched auto-excluded row, and an untouched row with only the legacy
flag. -/
theorem effective_exclude_precedence_witness :
    effective_exclude
        { id := "a", date := "2024-09-02", description := "ONLINE TRANSFER",
          amount := -200, account := "Dara Bank", category := "Transfers",
          auto_exclude_reason := some "account_transfer",
          manual_override_type := some "include" } = false ∧
    effective_exclude
        { id := "b", date := "2024-09-03", description := "AMAZON.COM PURCHASE",
          amount := -45, account := "Dara Bank", category := "Shopping",
          exclude_from_budget := false,
          manual_override_type := some "exclude" } = true ∧
    effective_exclude
        { id := "c", date := "2024-09-04", description := "CREDIT CRD EPAY",
          amount := -500, account := "Dara Bank", category := "Transfers",
          auto_exclude_reason := some "credit_card_payment" } = true ∧
    effective_exclude
        { id := "d", date := "2024-09-05", description := "SHELL GAS #123",
          amount := -45, account := "Dara Bank", category := "Automotive",
          exclude_from_budget := true } = true := by
  refine ⟨(effective_exclude_precedence _).1 rfl,
    (effective_exclude_precedence _).2.1 rfl,
    (effective_exclude_precedence _).2.2.1 rfl rfl, ?_⟩
  exact (effective_exclude_precedence _).2.2.2 rfl rfl

/-- C2: the `transactions` table created by `_create_tables` has none of the
columns `auto_exclude_reason`, `manual_override_type`, `override_reason`,
`override_category`; the INSERT of `insert_transactions` never writes the
parser-produced `auto_exclude_reason` (the stored row is unchanged whatever
that field held); and on a database initialized only by this code every
engine statement referencing those columns (`get_effective_transactions`,
`get_calculation_breakdown`, `get_override_candidates`,
`apply_manual_override`) errors instead of returning a classification. -/
theorem schema_lacks_override_columns :
    transactions_table_columns.contains "auto_exclude_reason" = false ∧
    transactions_table_columns.contains "manual_override_type" = false ∧
    transactions_table_columns.contains "override_reason" = false ∧
    transactions_table_columns.contains "override_category" = false ∧
    insert_statement_columns.contains "auto_exclude_reason" = false ∧
    (∀ (tid : String) (c : RawTxn) (r : Option String),
      mkStored tid { c with auto_exclude_reason := r } = mkStored tid c) ∧
    statement_errors transactions_table_columns
      effective_transactions_query_columns = true ∧
    statement_errors transactions_table_columns
      calculation_breakdown_query_columns = true ∧
    statement_errors transactions_table_columns
      override_candidates_query_columns = true ∧
    statement_errors transactions_table_columns
      apply_manual_override_update_columns = true := by
  refine ⟨by decide, by decide, by decide, by decide, by decide,
    fun tid c r => rfl, by decide, by decide, by decide, by decide⟩

/-- C9: `normalize_value` is total over every stored value shape and returns
a strict boolean: booleans pass through; integers and floats are true exactly
when nonzero; a string is true exactly when it lower-cases to "true", "1",
"yes" or "on"; None, NaN, bytes, lists, dicts, tuples, arrays and every
unrecognized type map to False; and `_normalize_boolean_column` applies this
value-wise. -/
theorem normalize_boolean_total_rules :
    (∀ b : Bool, normalize_value (.pyBool b) = b) ∧
    (∀ i : ℤ, normalize_value (.pyInt i) = true ↔ i ≠ 0) ∧
    (∀ q : ℚ, normalize_value (.pyFloat q) = true ↔ q ≠ 0) ∧
    (∀ s : String, normalize_value (.pyStr s) = true ↔
      strLower s = "true" ∨ strLower s = "1" ∨ strLower s = "yes" ∨
        strLower s = "on") ∧
    normalize_value (.pyStr "TRUE") = true ∧
    normalize_value (.pyStr "no") = false ∧
    normalize_value .pyNone = false ∧
    normalize_value .nan = false ∧
    (∀ n : ℕ, normalize_value (.pyBytes n) = false) ∧
    normalize_value .pyList = false ∧
    normalize_value .pyDict = false ∧
    normalize_value .pyTuple = false ∧
    normalize_value .pyArray = false ∧
    normalize_value .other = false ∧
    (∀ series : List PyVal,
      normalize_boolean_column series = series.map normalize_value) := by
  refine ⟨fun b => rfl, fun i => by simp [normalize_value],
    fun q => by simp [normalize_value], fun s => ?_,
    by decide, by decide, rfl, rfl, fun n => rfl, rfl, rfl, rfl, rfl, rfl,
    fun series => rfl⟩
  simp [normalize_value, List.contains_eq_any_beq, or_assoc]

/-! ### Ledger-store lemmas -/

/-- An id present in the table stays present through any
`insert_transactions` run (rows are only appended, never removed). -/
theorem insert_preserves_id (txns : List RawTxn) (db : List StoredTxn)
    (tid : String) (h : has_id db tid = true) :
    has_id (insert_transactions txns db).1 tid = true := by
  induction txns generalizing db with
  | nil => exact h
  | cons t rest ih =>
    rw [insert_transactions]
    by_cases hv : validate_transaction t = true
    · rw [if_pos hv]
      by_cases hex : has_id db (candidate_id t) = true
      · rw [if_pos hex]
        exact ih db h
      · rw [if_neg hex]
        refine ih _ ?_
        simp only [has_id, List.any_append] at h ⊢
        simp [h]
    · rw [if_neg hv]
      exact ih db h

/-- After one `insert_transactions` run, the id of every valid candidate of
the batch is present in the table. -/
theorem insert_covers (txns : List RawTxn) (db : List StoredTxn) :
    ∀ t ∈ txns, validate_transaction t = true →
      has_id (insert_transactions txns db).1 (candidate_id t) = true := by
  induction txns generalizing db with
  | nil => intro t ht; cases ht
  | cons x rest ih =>
    intro t ht hv
    rw [insert_transactions]
    rcases List.mem_cons.mp ht with rfl | hmem
    · rw [if_pos hv]
      by_cases hex : has_id db (candidate_id t) = true
      · rw [if_pos hex]
        exact insert_preserves_id rest db _ hex
      · rw [if_neg hex]
        refine insert_preserves_id rest _ _ ?_
        simp [has_id, mkStored]
    · by_cases hvx : validate_transaction x = true
      · rw [if_pos hvx]
        by_cases hex : has_id db (candidate_id x) = true
        · rw [if_pos hex]
          exact ih db t hmem hv
        · rw [if_neg hex]
          exact ih _ t hmem hv
      · rw [if_neg hvx]
        exact ih db t hmem hv

/-- A batch whose valid candidates' ids are all already stored is a no-op:
no row is written and `new_count` is 0. -/
theorem insert_noop (txns : List RawTxn) (db : List StoredTxn)
    (h : ∀ t ∈ txns, validate_transaction t = true →
      has_id db (candidate_id t) = true) :
    insert_transactions txns db = (db, 0) := by
  induction txns with
  | nil => rfl
  | cons t rest ih =>
    rw [insert_transactions]
    by_cases hv : validate_transaction t = true
    · rw [if_pos hv, if_pos (h t (List.mem_cons_self t rest) hv)]
      exact ih fun t' ht' => h t' (List.mem_cons_of_mem t ht')
    · rw [if_neg hv]
      exact ih fun t' ht' => h t' (List.mem_cons_of_mem t ht')

/-- C8: `insert_transactions` rejects at store time any candidate whose
amount magnitude exceeds 1,000,000 — it fails validation, is excluded from
`new_count` and never stored — while the candidate with amount 999,999.99
and otherwise valid fields passes validation and is stored. -/
theorem insert_amount_bound
    (t : RawTxn) (db : List StoredTxn) (h : 1000000 < |t.amount|) :
    (validate_transaction t = false ∧ insert_transactions [t] db = (db, 0)) ∧
    validate_transaction
      { date := "2024-09-15", description := "HOUSE SALE PROCEEDS",
        amount := 99999999 / 100, account := "Dara Bank" } = true ∧
    insert_transactions
      [{ date := "2024-09-15", description := "HOUSE SALE PROCEEDS",
         amount := 99999999 / 100, account := "Dara Bank" }] [] =
      ([mkStored
          (candidate_id
            { date := "2024-09-15", description := "HOUSE SALE PROCEEDS",
              amount := 99999999 / 100, account := "Dara Bank" })
          { date := "2024-09-15", description := "HOUSE SALE PROCEEDS",
            amount := 99999999 / 100, account := "Dara Bank" }], 1) := by
  have hval : validate_transaction t = false := by
    unfold validate_transaction
    split_ifs <;> simp_all
  have hval999 : validate_transaction
      { date := "2024-09-15", description := "HOUSE SALE PROCEEDS",
        amount := 99999999 / 100, account := "Dara Bank" } = true := by
    have habs : ¬ ((1000000 : ℚ) < |(99999999 : ℚ) / 100|) := by
      rw [abs_of_nonneg (by norm_num)]
      norm_num
    unfold validate_transaction
    rw [if_neg (by decide), if_neg (by decide), if_neg (by norm_num),
      if_neg (by decide), if_neg habs, if_neg (by decide), if_neg (by decide)]
  refine ⟨⟨hval, ?_⟩, hval999, ?_⟩
  · rw [insert_transactions, if_neg (by simp [hval])]
    rfl
  · rw [insert_transactions, if_pos hval999, if_neg (by simp [has_id])]
    rfl

/-- Witness for C8: the amount-2,000,000 candidate fails validation and is
not stored nor counted. -/
theorem insert_amount_bound_witness :
    validate_transaction
      { date := "2024-09-15", description := "LOTTERY WIN", amount := 2000000,
        account := "Dara Bank" } = false ∧
    insert_transactions
      [{ date := "2024-09-15", description := "LOTTERY WIN", amount := 2000000,
         account := "Dara Bank" }] [] = ([], 0) :=
  (insert_amount_bound
    { date := "2024-09-15", description := "LOTTERY WIN", amount := 2000000,
      account := "Dara Bank" } []
    (by rw [abs_of_nonneg (by norm_num)]; norm_num)).1

/-- C10: `validate_transaction` treats any falsy required field as missing,
so a candidate whose amount is exactly 0 — or whose date, description or
account is empty — is silently skipped by `insert_transactions`: never
stored, not counted in `new_count`, even though a zero amount satisfies the
magnitude bound of 10^6. -/
theorem falsy_required_field_skipped (t : RawTxn) (db : List StoredTxn)
    (h : t.amount = 0 ∨ t.date = "" ∨ t.description = "" ∨ t.account = "") :
    validate_transaction t = false ∧
    insert_transactions [t] db = (db, 0) ∧
    (t.amount = 0 → |t.amount| ≤ 1000000) := by
  have hval : validate_transaction t = false := by
    unfold validate_transaction
    rcases h with h | h | h | h <;> split_ifs <;> simp_all
  refine ⟨hval, ?_, fun h0 => by rw [h0]; norm_num⟩
  rw [insert_transactions, if_neg (by simp [hval])]
  rfl

/-- Witness for C10: a zero-amount candidate with otherwise valid fields is
rejected and not stored. -/
theorem falsy_required_field_skipped_witness :
    validate_transaction
      { date := "2024-09-15", description := "ZERO ADJUSTMENT", amount := 0,
        account := "Dara Bank" } = false ∧
    insert_transactions
      [{ date := "2024-09-15", description := "ZERO ADJUSTMENT", amount := 0,
         account := "Dara Bank" }] [] = ([], 0) ∧
    ((0 : ℚ) = 0 → |(0 : ℚ)| ≤ 1000000) := by
  have h := falsy_required_field_skipped
    { date := "2024-09-15", description := "ZERO ADJUSTMENT", amount := 0,
      account := "Dara Bank" } [] (Or.inl rfl)
  exact h

/-- C7: re-ingesting the same candidate list is idempotent — the second
`insert_transactions` run returns `new_count = 0` and leaves the stored
table (hence its record count) unchanged, because each record is keyed by
the deterministic id and insert-if-absent is a no-op for an existing id. -/
theorem insert_transactions_idempotent (txns : List RawTxn)
    (db : List StoredTxn) :
    insert_transactions txns (insert_transactions txns db).1 =
      ((insert_transactions txns db).1, 0) :=
  insert_noop txns _ (fun t ht hv => insert_covers txns db t ht hv)

/-- C5: the card-style row "ONLINE PMT THANK YOU" with amount +500.00 is
dropped by `parse_credit_card_csv` (it yields no candidate, so it never
becomes a ledger record), while the ledger-style row "CREDIT CRD EPAY" with
amount −500.00 is kept, tagged `auto_exclude_reason = 'credit_card_payment'`
with category "Transfers", and is excluded from the spending total (its
effective-exclude is true, so both the breakdown's final spending and the
household spending over it are 0). -/
theorem card_payment_dedup :
    parse_credit_card_row "2024-09-02" 500 "Payment" "ONLINE PMT THANK YOU"
      "Dara Credit" = none ∧
    parse_bank_row "2024-09-05" "DEBIT" "CREDIT CRD EPAY" (some 500) none
      "Dara Bank" =
      some { date := "2024-09-05", description := "CREDIT CRD EPAY",
             amount := -500, account := "Dara Bank",
             category := some "Transfers",
             auto_exclude_reason := some "credit_card_payment",
             raw_description := some "DEBIT: CREDIT CRD EPAY" } ∧
    effective_exclude (freshTxn "t2"
      { date := "2024-09-05", description := "CREDIT CRD EPAY",
        amount := -500, account := "Dara Bank",
        category := some "Transfers",
        auto_exclude_reason := some "credit_card_payment",
        raw_description := some "DEBIT: CREDIT CRD EPAY" }) = true ∧
    breakdown_final_spending [freshTxn "t2"
      { date := "2024-09-05", description := "CREDIT CRD EPAY",
        amount := -500, account := "Dara Bank",
        category := some "Transfers",
        auto_exclude_reason := some "credit_card_payment",
        raw_description := some "DEBIT: CREDIT CRD EPAY" }] = 0 ∧
    household_spending [freshTxn "t2"
      { date := "2024-09-05", description := "CREDIT CRD EPAY",
        amount := -500, account := "Dara Bank",
        category := some "Transfers",
        auto_exclude_reason := some "credit_card_payment",
        raw_description := some "DEBIT: CREDIT CRD EPAY" }] = 0 := by
  refine ⟨by decide, by decide, by decide, ?_, ?_⟩
  · simp [breakdown_final_spending, breakdown_spending_signed, sumAmounts,
      get_budget_transactions, List.filter_cons, effective_exclude, freshTxn]
  · simp [household_spending, sumAmounts, List.filter_cons,
      isTransferCategory, freshTxn]

/-! ### Income-set membership lemmas -/

/-- Membership in the source's combine idiom (concat + drop_duplicates when
both parts are non-empty, one part alone otherwise) is membership in either
part. -/
theorem mem_combine (l1 l2 : List Txn) (t : Txn) :
    t ∈ (if !l1.isEmpty && !l2.isEmpty then (l1 ++ l2).dedup
         else if !l1.isEmpty then l1
         else if !l2.isEmpty then l2
         else []) ↔ t ∈ l1 ∨ t ∈ l2 := by
  split_ifs with h1 h2 h3
  · simp [List.mem_dedup]
  · simp only [Bool.and_eq_true, Bool.not_eq_true'] at h1
    have h2' : l2 = [] := by
      by_cases hl2 : l2.isEmpty = true
      · exact List.isEmpty_iff.mp hl2
      · exact absurd ⟨by simpa using h2, by simpa using hl2⟩ h1
    simp [h2']
  · have h1' : l1 = [] := by
      by_cases hl1 : l1.isEmpty = true
      · exact List.isEmpty_iff.mp hl1
      · exact absurd (by simpa using hl1) (by simpa using h2)
    simp [h1']
  · have h1' : l1 = [] := by
      by_cases hl1 : l1.isEmpty = true
      · exact List.isEmpty_iff.mp hl1
      · exact absurd (by simpa using hl1) (by simpa using h2)
    have h2' : l2 = [] := by
      by_cases hl2 : l2.isEmpty = true
      · exact List.isEmpty_iff.mp hl2
      · exact absurd (by simpa using hl2) (by simpa using h3)
    simp [h1', h2']

/-- Membership in `_apply_income_whitelist`: a positive row of the input that
matches the income vocabulary or is a small credit on a credit-type
account. -/
theorem mem_apply_income_whitelist (ts : List Txn) (t : Txn) :
    t ∈ apply_income_whitelist ts ↔
      t ∈ ts ∧ 0 < t.amount ∧
        (matchesIncomePatterns t.description = true ∨
          (isCreditAccount t.account = true ∧ t.amount < 100)) := by
  unfold apply_income_whitelist
  rw [mem_combine]
  simp only [List.mem_filter, decide_eq_true_eq, Bool.and_eq_true]
  tauto

/-- Membership in `get_filtered_income_transactions`: a positive budget row
captured by the whitelist or carrying a manual income inclusion. -/
theorem mem_filtered_income (l : List Txn) (t : Txn) :
    t ∈ get_filtered_income_transactions l ↔
      t ∈ l ∧ effective_exclude t = false ∧ 0 < t.amount ∧
        (matchesIncomePatterns t.description = true ∨
          (isCreditAccount t.account = true ∧ t.amount < 100) ∨
          isManualIncome t = true) := by
  unfold get_filtered_income_transactions
  rw [mem_combine, mem_apply_income_whitelist]
  simp only [get_budget_transactions, List.mem_filter, decide_eq_true_eq]
  tauto

/-- C6: a positive transaction of the budget set is counted as income by
`get_filtered_income_transactions` exactly when its description matches the
income vocabulary, or its account is credit-type with amount < 100, or it
carries a manual include override with `override_category = 'income'`; and
(with distinct stored ids) it is returned by `get_pending_income_overrides`
exactly when it is not counted as income, so a pending row contributes
nothing to the income total. -/
theorem income_whitelist_exactness (l : List Txn) (t : Txn)
    (hids : (l.map (fun u => u.id)).Nodup) (ht : t ∈ l)
    (hb : effective_exclude t = false) (hpos : 0 < t.amount) :
    (t ∈ get_filtered_income_transactions l ↔
      (matchesIncomePatterns t.description = true ∨
        (isCreditAccount t.account = true ∧ t.amount < 100) ∨
        isManualIncome t = true)) ∧
    (t ∈ get_pending_income_overrides l ↔
      t ∉ get_filtered_income_transactions l) := by
  have hinj := List.inj_on_of_nodup_map hids
  have hmemfi := mem_filtered_income l t
  have hposmem : t ∈ (get_budget_transactions l).filter (fun u => 0 < u.amount) := by
    simp [get_budget_transactions, List.mem_filter, ht, hb, hpos]
  have hsub : ∀ u ∈ (get_budget_transactions l).filter (fun u => 0 < u.amount),
      u ∈ l := by
    intro u hu
    simp only [get_budget_transactions, List.mem_filter] at hu
    exact hu.1.1
  constructor
  · rw [hmemfi]
    tauto
  · unfold get_pending_income_overrides
    rw [List.mem_filter]
    simp only [hposmem, true_and]
    rw [hmemfi, Bool.not_eq_true']
    have hcont : ∀ (ids : List String) (x : String),
        (ids.contains x = false) ↔ x ∉ ids := by
      intro ids x
      simp
    rw [hcont]
    constructor
    · intro hnotin hmem
      rcases hmem with ⟨-, -, -, hcase⟩
      apply hnotin
      rw [List.mem_append]
      rcases hcase with hpat | hcc | hman
      · exact Or.inl (List.mem_map.mpr ⟨t,
          (mem_apply_income_whitelist _ t).mpr ⟨hposmem, hpos, Or.inl hpat⟩, rfl⟩)
      · exact Or.inl (List.mem_map.mpr ⟨t,
          (mem_apply_income_whitelist _ t).mpr ⟨hposmem, hpos, Or.inr hcc⟩, rfl⟩)
      · exact Or.inr (List.mem_map.mpr ⟨t,
          List.mem_filter.mpr ⟨hposmem, hman⟩, rfl⟩)
    · intro hno hin
      rw [List.mem_append] at hin
      rcases hin with hin | hin
      · rcases List.mem_map.mp hin with ⟨u, hu, hid⟩
        have humem := (mem_apply_income_whitelist _ u).mp hu
        have hul : u ∈ l := hsub u humem.1
        have hut : u = t := hinj hul ht hid
        subst hut
        refine hno ⟨ht, hb, hpos, ?_⟩
        rcases humem.2.2 with h | h
        · exact Or.inl h
        · exact Or.inr (Or.inl h)
      · rcases List.mem_map.mp hin with ⟨u, hu, hid⟩
        rw [List.mem_filter] at hu
        have hul : u ∈ l := hsub u hu.1
        have hut : u = t := hinj hul ht hid
        subst hut
        exact hno ⟨ht, hb, hpos, Or.inr (Or.inr hu.2)⟩

/-- Witness for C6: with the two-row month of the spec's example,
"DIRECT DEP PAYROLL 9/1" (+2500.00, checking account) is counted as income
and "AMAZON.COM PURCHASE" (+45.00, same account) is a pending-income
candidate that is not counted as income. -/
theorem income_whitelist_exactness_witness :
    payrollTxn ∈ get_filtered_income_transactions sampleMonth ∧
    amazonTxn ∈ get_pending_income_overrides sampleMonth ∧
    amazonTxn ∉ get_filtered_income_transactions sampleMonth := by
  have hp := income_whitelist_exactness sampleMonth payrollTxn
    (by decide) (by decide) (by decide) (by decide)
  have ha := income_whitelist_exactness sampleMonth amazonTxn
    (by decide) (by decide) (by decide) (by decide)
  have hano : amazonTxn ∉ get_filtered_income_transactions sampleMonth := by
    rw [ha.1]
    decide
  exact ⟨hp.1.mpr (Or.inl (by decide)), ha.2.mpr hano, hano⟩

/-! ### Helper lemmas for the refinement claims -/

/-- A per-row conditional sum is the sum over the filtered rows (the SQL
`SUM(CASE WHEN p THEN f ELSE 0 END)` idiom). -/
theorem sum_if_eq_sum_filter (l : List Txn) (p : Txn → Bool) (f : Txn → ℚ) :
    (l.map (fun t => if p t then f t else 0)).sum =
      ((l.filter p).map f).sum := by
  induction l with
  | nil => rfl
  | cons a l ih =>
    by_cases h : p a = true
    · simp [List.filter_cons, h, ih]
    · simp only [Bool.not_eq_true] at h
      simp [List.filter_cons, h, ih]

/-- A list of non-positive amounts sums to a non-positive total. -/
theorem sumAmounts_nonpos (l : List Txn) (h : ∀ t ∈ l, t.amount ≤ 0) :
    sumAmounts l ≤ 0 := by
  induction l with
  | nil => simp [sumAmounts]
  | cons a l ih =>
    simp only [sumAmounts, List.map_cons, List.sum_cons]
    exact add_nonpos (h a (List.mem_cons_self a l))
      (ih fun t ht => h t (List.mem_cons_of_mem a ht))

/-- The source's combine idiom equals dedup-of-append outright when both
parts are duplicate-free. -/
theorem combine_eq_dedup_append (l1 l2 : List Txn)
    (h1 : l1.Nodup) (h2 : l2.Nodup) :
    (if !l1.isEmpty && !l2.isEmpty then (l1 ++ l2).dedup
     else if !l1.isEmpty then l1
     else if !l2.isEmpty then l2
     else []) = (l1 ++ l2).dedup := by
  split_ifs with ha hb hc
  · rfl
  · have h2e : l2 = [] := by
      by_cases hl2 : l2.isEmpty = true
      · exact List.isEmpty_iff.mp hl2
      · refine absurd ?_ ha
        simp only [Bool.and_eq_true]
        exact ⟨by simpa using hb, by simpa using hl2⟩
    simp [h2e, List.dedup_eq_self.mpr h1]
  · have h1e : l1 = [] := by
      by_cases hl1 : l1.isEmpty = true
      · exact List.isEmpty_iff.mp hl1
      · exact absurd (by simpa using hl1) (by simpa using hb)
    simp [h1e, List.dedup_eq_self.mpr h2]
  · have h1e : l1 = [] := by
      by_cases hl1 : l1.isEmpty = true
      · exact List.isEmpty_iff.mp hl1
      · exact absurd (by simpa using hl1) (by simpa using hb)
    have h2e : l2 = [] := by
      by_cases hl2 : l2.isEmpty = true
      · exact List.isEmpty_iff.mp hl2
      · exact absurd (by simpa using hl2) (by simpa using hc)
    simp [h1e, h2e]

/-- Under no-override / parser-consistent hypotheses, the engine's
effective-exclude test coincides with the category-and-flag test used by
`get_household_finances` and the trend SQL. -/
theorem effective_exclude_eq_category_test (l : List Txn)
    (hman : ∀ t ∈ l, t.manual_override_type = none)
    (hcat : ∀ t ∈ l, t.auto_exclude_reason.isSome ↔ t.category = "Transfers")
    (hccp : ∀ t ∈ l, t.category ≠ "Credit Card Payment") :
    ∀ t ∈ l, decide (effective_exclude t = false) =
      (!(isTransferCategory t) && !t.exclude_from_budget) := by
  intro t htl
  have h1 := hman t htl
  have h2 := hcat t htl
  have h3 := hccp t htl
  cases hr : t.auto_exclude_reason with
  | none =>
    have hcatne : t.category ≠ "Transfers" := by
      intro hc
      have := h2.mpr hc
      simp [hr] at this
    simp only [effective_exclude, h1, hr, isTransferCategory]
    cases t.exclude_from_budget <;> simp [hcatne, h3]
  | some r =>
    have hcatT : t.category = "Transfers" := h2.mp (by simp [hr])
    simp [effective_exclude, h1, hr, isTransferCategory, hcatT]

/-- Counterexample for C3: on a month holding one ordinary purchase with a
manual force-exclude override, `get_calculation_breakdown`'s final spending
is 0 but `get_household_finances` (which never consults the override
columns) reports 50 — the two do not reconcile. -/
theorem breakdown_household_divergence :
    breakdown_final_spending [forceExcludedGrocery] = 0 ∧
    household_spending [forceExcludedGrocery] = 50 ∧
    breakdown_final_spending [forceExcludedGrocery] ≠
      household_spending [forceExcludedGrocery] := by
  have h1 : breakdown_final_spending [forceExcludedGrocery] = 0 := by
    simp [breakdown_final_spending, breakdown_spending_signed,
      get_budget_transactions, List.filter_cons, effective_exclude,
      forceExcludedGrocery, sumAmounts]
  have h2 : household_spending [forceExcludedGrocery] = 50 := by
    have habs : |(-50 : ℚ)| = 50 := by
      rw [abs_of_nonpos (by norm_num)]
      norm_num
    norm_num [household_spending, sumAmounts, List.filter_cons,
      isTransferCategory, forceExcludedGrocery]
    rw [if_pos (⟨by decide, by decide⟩ :
      ¬"Groceries" = "Transfers" ∧ ¬"Groceries" = "Credit Card Payment")]
    simp [habs]
  exact ⟨h1, h2, by rw [h1, h2]; norm_num⟩

/-- C3 as amended: when no transaction of the month carries a manual
override, stored ids are unique, and `auto_exclude_reason` is non-NULL
exactly on the rows categorized "Transfers" (none categorized "Credit Card
Payment") — as the parsers guarantee at ingest — the final spending, income
and net of `get_calculation_breakdown` equal the values independently
computed by `get_household_finances`, and every manual-override group of the
same breakdown is empty. -/
theorem breakdown_reconciles_household (l : List Txn)
    (hids : (l.map (fun u => u.id)).Nodup)
    (hman : ∀ t ∈ l, t.manual_override_type = none)
    (hcat : ∀ t ∈ l, t.auto_exclude_reason.isSome ↔ t.category = "Transfers")
    (hccp : ∀ t ∈ l, t.category ≠ "Credit Card Payment") :
    breakdown_final_spending l = household_spending l ∧
    breakdown_final_income l = household_income l ∧
    breakdown_final_net l = household_net l ∧
    (∀ otype, breakdown_manual_override_group l otype = (0, 0)) := by
  have hkey := effective_exclude_eq_category_test l hman hcat hccp
  have hnodup : l.Nodup := hids.of_map _
  have hspend : breakdown_spending_signed l =
      sumAmounts (l.filter (fun t =>
        t.amount < 0 && !(isTransferCategory t) && !t.exclude_from_budget)) := by
    unfold breakdown_spending_signed get_budget_transactions
    rw [List.filter_filter]
    congr 1
    apply List.filter_congr
    intro t htl
    rw [hkey t htl]
    cases h1 : decide (t.amount < 0) <;> cases h2 : isTransferCategory t <;>
      cases h3 : t.exclude_from_budget <;> simp [h1, h2, h3]
  have hsp : breakdown_final_spending l = household_spending l := by
    unfold breakdown_final_spending household_spending
    rw [hspend]
  have hpos_eq : (get_budget_transactions l).filter (fun t => 0 < t.amount) =
      l.filter (fun t =>
        0 < t.amount && !(isTransferCategory t) && !t.exclude_from_budget) := by
    unfold get_budget_transactions
    rw [List.filter_filter]
    apply List.filter_congr
    intro t htl
    rw [hkey t htl]
    cases h1 : decide (0 < t.amount) <;> cases h2 : isTransferCategory t <;>
      cases h3 : t.exclude_from_budget <;> simp [h1, h2, h3]
  have hmem_pos : ∀ x ∈ (get_budget_transactions l).filter
      (fun t => 0 < t.amount), decide (0 < x.amount) = true := by
    intro x hx
    exact (List.mem_filter.mp hx).2
  have hrefilter : ((get_budget_transactions l).filter
        (fun t => 0 < t.amount)).filter (fun t => 0 < t.amount) =
      (get_budget_transactions l).filter (fun t => 0 < t.amount) :=
    List.filter_eq_self.mpr hmem_pos
  have hpnodup : (((get_budget_transactions l).filter
      (fun t => 0 < t.amount))).Nodup := (hnodup.filter _).filter _
  have hwl : apply_income_whitelist
      ((get_budget_transactions l).filter (fun t => 0 < t.amount)) =
      ((((get_budget_transactions l).filter (fun t => 0 < t.amount)).filter
          (fun t => matchesIncomePatterns t.description)) ++
        (((get_budget_transactions l).filter (fun t => 0 < t.amount)).filter
          (fun t => isCreditAccount t.account && t.amount < 100))).dedup := by
    unfold apply_income_whitelist
    simp only [hrefilter]
    exact combine_eq_dedup_append _ _ (hpnodup.filter _) (hpnodup.filter _)
  have hwlnodup : (apply_income_whitelist
      ((get_budget_transactions l).filter (fun t => 0 < t.amount))).Nodup := by
    rw [hwl]
    exact List.nodup_dedup _
  have hmi : ((get_budget_transactions l).filter
      (fun t => 0 < t.amount)).filter isManualIncome = [] := by
    rw [List.filter_eq_nil_iff]
    intro x hx
    have hxl : x ∈ l := by
      simp only [get_budget_transactions, List.mem_filter] at hx
      exact hx.1.1
    simp [isManualIncome, hman x hxl]
  have hfi : get_filtered_income_transactions l =
      apply_income_whitelist
        ((get_budget_transactions l).filter (fun t => 0 < t.amount)) := by
    unfold get_filtered_income_transactions
    simp only [hmi]
    rw [combine_eq_dedup_append _ _ hwlnodup List.nodup_nil, List.append_nil,
      List.dedup_eq_self.mpr hwlnodup]
  have hhi : household_income_rows l =
      ((((get_budget_transactions l).filter (fun t => 0 < t.amount)).filter
          (fun t => matchesIncomePatterns t.description)) ++
        (((get_budget_transactions l).filter (fun t => 0 < t.amount)).filter
          (fun t => isCreditAccount t.account && t.amount < 100))).dedup := by
    simp only [household_income_rows]
    rw [← hpos_eq]
  have hinc : breakdown_final_income l = household_income l := by
    unfold breakdown_final_income household_income
    rw [hfi, hwl, hhi]
  have hneg : ∀ t ∈ l.filter (fun t =>
      t.amount < 0 && !(isTransferCategory t) && !t.exclude_from_budget),
      t.amount ≤ 0 := by
    intro t ht
    have := (List.mem_filter.mp ht).2
    simp only [Bool.and_eq_true, decide_eq_true_eq] at this
    exact le_of_lt this.1.1
  have habs : |sumAmounts (l.filter (fun t =>
      t.amount < 0 && !(isTransferCategory t) && !t.exclude_from_budget))| =
      -(sumAmounts (l.filter (fun t =>
        t.amount < 0 && !(isTransferCategory t) && !t.exclude_from_budget))) :=
    abs_of_nonpos (sumAmounts_nonpos _ hneg)
  have hnet : breakdown_final_net l = household_net l := by
    unfold breakdown_final_net household_net household_spending
    rw [hinc, hspend, habs]
    ring
  refine ⟨hsp, hinc, hnet, fun otype => ?_⟩
  have hrows : l.filter (fun t => t.manual_override_type = some otype) = [] := by
    rw [List.filter_eq_nil_iff]
    intro x hx
    simp [hman x hx]
  simp [breakdown_manual_override_group, hrows, sumAbsAmounts]

/-- Witness for the amended C3: the reconciliation equalities hold at the
concrete three-row month of untouched parser-produced rows. -/
theorem breakdown_reconciles_household_witness :
    breakdown_final_spending septMonth = household_spending septMonth ∧
    breakdown_final_income septMonth = household_income septMonth ∧
    breakdown_final_net septMonth = household_net septMonth ∧
    breakdown_manual_override_group septMonth "exclude" = (0, 0) := by
  have h := breakdown_reconciles_household septMonth
    (by decide) (by decide) (by decide) (by decide)
  exact ⟨h.1, h.2.1, h.2.2.1, h.2.2.2 "exclude"⟩

/-- Counterexample for C4: on a month holding one ordinary purchase with a
manual force-exclude override, `get_monthly_trends` counts 50 of spending
(its SQL never consults `manual_override_type` or `auto_exclude_reason`),
while the §4.3 effective-exclude rule yields 0. -/
theorem trend_overrides_divergence :
    trend_spending [forceExcludedGrocery] = 50 ∧
    spec_monthly_spending [forceExcludedGrocery] = 0 ∧
    trend_spending [forceExcludedGrocery] ≠
      spec_monthly_spending [forceExcludedGrocery] := by
  have habs : |(-50 : ℚ)| = 50 := by
    rw [abs_of_nonpos (by norm_num)]
    norm_num
  have h1 : trend_spending [forceExcludedGrocery] = 50 := by
    norm_num [trend_spending, isTransferCategory, forceExcludedGrocery, habs]
    exact ⟨by decide, by decide⟩
  have h2 : spec_monthly_spending [forceExcludedGrocery] = 0 := by
    simp [spec_monthly_spending, sumAbsAmounts, List.filter_cons,
      effective_exclude, forceExcludedGrocery]
  exact ⟨h1, h2, by rw [h1, h2]; norm_num⟩

/-- C4 as amended: when no transaction of the window's months carries a
manual override and `auto_exclude_reason` is non-NULL exactly on the rows
categorized "Transfers" (none categorized "Credit Card Payment"), the
per-month spending, income and net of `get_monthly_trends` equal the values
obtained by re-deriving, per row, the §4.3 effective-exclude rule and income
whitelist. -/
theorem trend_matches_engine_without_overrides (l : List Txn)
    (hman : ∀ t ∈ l, t.manual_override_type = none)
    (hcat : ∀ t ∈ l, t.auto_exclude_reason.isSome ↔ t.category = "Transfers")
    (hccp : ∀ t ∈ l, t.category ≠ "Credit Card Payment") :
    trend_spending l = spec_monthly_spending l ∧
    trend_income l = spec_monthly_income l ∧
    trend_net l = spec_monthly_net l := by
  have hkey := effective_exclude_eq_category_test l hman hcat hccp
  have hs : trend_spending l = spec_monthly_spending l := by
    unfold trend_spending spec_monthly_spending sumAbsAmounts
    rw [sum_if_eq_sum_filter]
    refine congrArg List.sum (congrArg (List.map _) (List.filter_congr ?_))
    intro t htl
    rw [hkey t htl]
    cases h1 : decide (t.amount < 0) <;> cases h2 : isTransferCategory t <;>
      cases h3 : t.exclude_from_budget <;> simp [h1, h2, h3]
  have hi : trend_income l = spec_monthly_income l := by
    unfold trend_income spec_monthly_income sumAmounts
    rw [sum_if_eq_sum_filter]
    refine congrArg List.sum (congrArg (List.map _) (List.filter_congr ?_))
    intro t htl
    unfold trend_income_cond
    rw [hkey t htl]
    cases h1 : decide (0 < t.amount) <;> cases h2 : isTransferCategory t <;>
      cases h3 : t.exclude_from_budget <;> simp [h1, h2, h3]
  exact ⟨hs, hi, by unfold trend_net spec_monthly_net; rw [hs, hi]⟩

/-- Witness for the amended C4: the per-month equalities hold at the
concrete three-row month of untouched parser-produced rows. -/
theorem trend_matches_engine_without_overrides_witness :
    trend_spending septMonth = spec_monthly_spending septMonth ∧
    trend_income septMonth = spec_monthly_income septMonth ∧
    trend_net septMonth = spec_monthly_net septMonth :=
  trend_matches_engine_without_overrides septMonth
    (by decide) (by decide) (by decide)

end PumpkinStats
